import Mathlib

/-!
Shallow embedding of the Stream Deck G HUB battery monitor plugin.

Source of truth: src/actions/monitor-battery.ts (plus the shared type
declarations).  The module-level mutable globals of the source (device list,
websocket handle, connection flags, instance map) become explicit state that is
threaded through the handler functions; observable actions (websocket frames
put on the wire, title/image updates on widgets, property-inspector messages)
become an explicit list of effects returned by each handler.  A handler that
can throw at runtime (the device-list handler indexes `devices[0]` without a
guard) returns an `Option`, with `none` modelling the thrown TypeError.
-/

/-- The `readyState` of a `ws` WebSocket, named after the WebSocket constants. -/
inductive WsReadyState
  | CONNECTING
  | OPEN
  | CLOSING
  | CLOSED
deriving DecidableEq, Repr

/-- `capabilities` field of a G HUB device. -/
structure Capabilities where
  hasBatteryStatus : Bool
deriving DecidableEq, Repr

/-- A device as reported by the G HUB websocket (`Device` in the type file). -/
structure Device where
  id : String
  pid : Nat
  displayName : String
  capabilities : Capabilities
deriving DecidableEq, Repr

/-- Per-widget state (`Instance` in the type file, with the `spacing` field the
code reads and writes). -/
structure Instance where
  deviceId : String
  name : String
  percentage : Int
  charging : Bool
  backgroundColor : String
  spacing : Nat
deriving DecidableEq, Repr

/-- User-supplied settings (`MonitorSettings`): every field may be absent at
runtime, which is what the `??` defaulting in the source handles. -/
structure MonitorSettings where
  value : Option Int
  pluggedIn : Option Bool
  name : Option String
  device : Option String
  bg : Option String
  spacing : Option Nat
deriving DecidableEq, Repr

/-- Payload of a `/battery/<id>/state` frame (`BatteryState.payload`). -/
structure BatteryPayload where
  deviceId : String
  percentage : Int
  charging : Bool
deriving DecidableEq, Repr

/-- The body a websocket frame can carry: a device list or a battery state. -/
inductive PayloadBody
  | deviceList (deviceInfos : List Device)
  | battery (b : BatteryPayload)
deriving DecidableEq, Repr

/-- An inbound websocket frame after JSON parsing: a `path` and an optional
payload (absence of the payload is meaningful for battery paths). -/
structure WsMessage where
  path : String
  payload : Option PayloadBody
deriving DecidableEq, Repr

/-- An outbound request frame `{path, verb}`. -/
structure Frame where
  path : String
  verb : String
deriving DecidableEq, Repr

/-- Observable actions of the handlers. `sendAttempt` records an invocation of
`websocketSend` (the request being issued), `wsSend` a frame actually written
to an open socket, `compositeImage` a request to render icon `iconPath` over
background `bg` onto the widget `actionId`, `setTitle` a title update,
`sendToPI` a message to the property inspector, `connectAttempt` a call of
`startWebSocketConnection` that actually opens a new socket. -/
inductive Effect
  | sendAttempt (path verb : String)
  | wsSend (f : Frame)
  | setTitle (actionId title : String)
  | compositeImage (actionId bg iconPath : String)
  | sendToPI (items : List (String × String))
  | connectAttempt
deriving DecidableEq, Repr

/-- Which widget an effect touches, if any. -/
def effTarget : Effect → Option String
  | Effect.setTitle a _ => some a
  | Effect.compositeImage a _ _ => some a
  | _ => none

/-! ## String helpers

The source discriminates frames with `String.prototype.includes` and parses the
device id out of a battery path with `split`.  These are embedded as structural
recursion over the character list so that all proofs compute in the kernel. -/

/-- Does the pattern (first argument) occur at the head of the text? -/
def startsWithSub : List Char → List Char → Bool
  | [], _ => true
  | _ :: _, [] => false
  | a :: as, b :: bs => a == b && startsWithSub as bs

/-- Split the text around the first occurrence of `sub`: `some (before, after)`
when `sub` occurs, `none` otherwise. -/
def splitFirst (sub : List Char) : List Char → Option (List Char × List Char)
  | [] => if sub.isEmpty then some ([], []) else none
  | c :: cs =>
    if startsWithSub sub (c :: cs) then some ([], (c :: cs).drop sub.length)
    else
      match splitFirst sub cs with
      | some (pre, post) => some (c :: pre, post)
      | none => none

/-- JS `s.includes(sub)` (for the non-empty patterns the source uses). -/
def strIncludes (s sub : String) : Bool := (splitFirst sub.data s.data).isSome

/-- Characters up to (excluding) the first slash. -/
def takeUntilSlash : List Char → List Char
  | [] => []
  | c :: cs => if c = '/' then [] else c :: takeUntilSlash cs

/-- JS `path.split("/battery/")[1].split("/")[0]`: the device id parsed out of
a battery path (the branch runs only when the path contains `/battery/`, so
`splitFirst` succeeds there). -/
def parseFailedDevice (path : String) : String :=
  match splitFirst "/battery/".data path.data with
  | some (_, post) => String.mk (takeUntilSlash post)
  | none => ""

/-! ## VisualStateMapper -/

/-- `getBatteryImage` from the source, on the battery payload it reads
(`bs.payload.percentage` / `bs.payload.charging`). -/
def getBatteryImage (bs : BatteryPayload) : String :=
  let percentage := bs.percentage
  if bs.charging then
    if percentage ≥ 80 then "imgs/actions/monitor/charging-green"
    else if percentage ≥ 40 then "imgs/actions/monitor/charging-orange"
    else "imgs/actions/monitor/charging-red"
  else
    if percentage = 100 then "imgs/actions/monitor/key-100"
    else if percentage ≥ 95 then "imgs/actions/monitor/key-95"
    else if percentage ≥ 90 then "imgs/actions/monitor/key-90"
    else if percentage ≥ 80 then "imgs/actions/monitor/key-80"
    else if percentage ≥ 70 then "imgs/actions/monitor/key-70"
    else if percentage ≥ 60 then "imgs/actions/monitor/key-60"
    else if percentage ≥ 50 then "imgs/actions/monitor/key-50"
    else if percentage ≥ 40 then "imgs/actions/monitor/key-40"
    else if percentage ≥ 30 then "imgs/actions/monitor/key-30"
    else if percentage ≥ 20 then "imgs/actions/monitor/key-20"
    else if percentage ≥ 10 then "imgs/actions/monitor/key-10"
    else if percentage > 0 then "imgs/actions/monitor/key-10"
    else "imgs/actions/monitor/key-0"

/-- The descending band boundaries of the spec band table. -/
def bandBoundaries : List Int := [100, 95, 90, 80, 70, 60, 50, 40, 30, 20, 10, 0]

/-- The highest band boundary that is `≤ p`. -/
def highestBandLE (p : Int) : Int := (bandBoundaries.filter (fun b => b ≤ p)).headD 0

/-- The icon dictated by the spec band table (stated from the spec wording, to
be compared with `getBatteryImage`): when charging, three thresholds at 80 and
40; when discharging, the icon of the highest boundary `≤ p`, with percentages
1..9 sharing the 10-band icon. -/
def specBandIcon (charging : Bool) (p : Int) : String :=
  if charging then
    if 80 ≤ p then "imgs/actions/monitor/charging-green"
    else if 40 ≤ p then "imgs/actions/monitor/charging-orange"
    else "imgs/actions/monitor/charging-red"
  else if 1 ≤ p ∧ p ≤ 9 then "imgs/actions/monitor/key-10"
  else "imgs/actions/monitor/key-" ++ toString (highestBandLE p)

/-- C1: for every percentage in [0,100] and every charging flag,
`getBatteryImage` returns the icon dictated by the band table: charging uses
the 80/40 thresholds, discharging the highest boundary `≤ percentage`, with
1..9 sharing the 10-band icon. -/
theorem getBatteryImage_matches_band_table (d : String) (p : Int) (c : Bool)
    (h0 : 0 ≤ p) (h100 : p ≤ 100) :
    getBatteryImage ⟨d, p, c⟩ = specBandIcon c p := by
  cases c <;> interval_cases p <;> rfl

/-- C1 witness: the band table at the boundary value 99 while discharging. -/
theorem getBatteryImage_matches_band_table_witness :
    getBatteryImage ⟨"dev001", 99, false⟩ = specBandIcon false 99 :=
  getBatteryImage_matches_band_table "dev001" 99 false (by decide) (by decide)

/-! ## Instance table

The source keeps instances in a `Map<string, Instance>` keyed by the widget
(action) id; we embed it as an association list in insertion order with unique
keys, with `lookupInst` the map lookup, `updAssoc` the overwrite of an existing
key and `setAssoc` the `Map.set` insert-or-overwrite. -/

/-- Map lookup on the instance table. -/
def lookupInst (k : String) : List (String × Instance) → Option Instance
  | [] => none
  | (k2, v) :: rest => if k2 = k then some v else lookupInst k rest

/-- Overwrite the first binding of `k` (a no-op when `k` is absent). -/
def updAssoc (k : String) (v : Instance) : List (String × Instance) → List (String × Instance)
  | [] => []
  | (k2, v2) :: rest => if k2 = k then (k2, v) :: rest else (k2, v2) :: updAssoc k v rest

/-- `Map.set`: overwrite when present, append when absent. -/
def setAssoc (k : String) (v : Instance) (l : List (String × Instance)) :
    List (String × Instance) :=
  match lookupInst k l with
  | some _ => updAssoc k v l
  | none => l ++ [(k, v)]

/-! ## ConnectionManager -/

/-- The connection-related module globals: `ws` (with its readyState when
non-null), `isConnecting`, and whether `reconnectInterval` is armed. -/
structure ConnState where
  ws : Option WsReadyState
  isConnecting : Bool
  reconnectArmed : Bool
deriving DecidableEq, Repr

/-- `RECONNECT_INTERVAL_MS` from the source. -/
def RECONNECT_INTERVAL_MS : Nat := 5000

/-- `websocketSend(ws, path, verb)` from the source.  The whole body is inside
`try`/`catch`, so the function is total: it returns the frame written to the
wire (if any) and whether the catch-branch debug log ran.  Passing `none` for
the socket models a null `ws`: reading `readyState` on it throws inside the
`try` and is caught (logged).  `sendRaises` models the underlying
`ws.send` itself throwing. -/
def websocketSend (wsOpt : Option WsReadyState) (sendRaises : Bool) (path verb : String) :
    Option Frame × Bool :=
  match wsOpt with
  | none => (none, true)
  | some rs =>
    if rs = WsReadyState.OPEN then
      if sendRaises then (none, true) else (some ⟨path, verb⟩, false)
    else (none, false)

/-- An invocation of `websocketSend` as an effect list: the attempt itself,
followed by the frame actually written when the socket is open. -/
def sendEffects (wsOpt : Option WsReadyState) (path verb : String) : List Effect :=
  Effect.sendAttempt path verb ::
    (match (websocketSend wsOpt false path verb).1 with
     | some f => [Effect.wsSend f]
     | none => [])

/-- `startWebSocketConnection`: a no-op when `isConnecting`; otherwise sets
`isConnecting` and replaces `ws` with a fresh socket in the CONNECTING state
(the open/message/error/close callbacks it registers are modelled as events of
the step relation below). -/
def startWebSocketConnection (cs : ConnState) : ConnState × List Effect :=
  if cs.isConnecting then (cs, [])
  else ({ cs with isConnecting := true, ws := some WsReadyState.CONNECTING },
        [Effect.connectAttempt])

/-- `cleanupWebSocket`: drop the socket and its listeners, clear `isConnecting`. -/
def cleanupWebSocket (cs : ConnState) : ConnState :=
  { cs with ws := none, isConnecting := false }

/-- `scheduleReconnect`: arm the interval unless already armed or no instance
exists. -/
def scheduleReconnect (cs : ConnState) (numInstances : Nat) : ConnState :=
  if cs.reconnectArmed || numInstances == 0 then cs
  else { cs with reconnectArmed := true }

/-! ## ImageCompositor interface and titles -/

/-- The background colour `setCompositeImage` resolves: the instance's
`backgroundColor` when set and non-empty, else the `"#12142D"` default. -/
def bgFor : Option Instance → String
  | some inst => if inst.backgroundColor ≠ "" then inst.backgroundColor else "#12142D"
  | none => "#12142D"

/-- `setCompositeImage(action, imagePath)` as the composite-render effect it
requests (both call sites use the default background argument). -/
def setCompositeImage (insts : List (String × Instance)) (actionId iconPath : String) : Effect :=
  Effect.compositeImage actionId (bgFor (lookupInst actionId insts)) iconPath

/-- The title string the battery-update branch computes:
`name + "\n" × spacing + percentage + "%"`, or just `percentage + "%"` when the
name is empty. -/
def titleFor (inst : Instance) : String :=
  let spacingValue := String.join (List.replicate inst.spacing "\n")
  if inst.name ≠ "" then inst.name ++ spacingValue ++ toString inst.percentage ++ "%"
  else toString inst.percentage ++ "%"

/-! ## InstanceTable handlers -/

/-- The instance `onWillAppear` stores: supplied settings merged over the
defaults. -/
def defaultInstance (s : MonitorSettings) : Instance :=
  { deviceId := s.device.getD ""
    name := s.name.getD ""
    percentage := s.value.getD 100
    charging := s.pluggedIn.getD false
    backgroundColor := s.bg.getD "#12142D"
    spacing := s.spacing.getD 2 }

/-- `onDidReceiveSettings`: update the targeted instance's name, deviceId
(kept when not supplied), background colour and spacing, then re-query that
device's battery state when the socket is open and a device is resolved. -/
def onDidReceiveSettings (wsOpt : Option WsReadyState) (id : String) (s : MonitorSettings)
    (insts : List (String × Instance)) : List (String × Instance) × List Effect :=
  match lookupInst id insts with
  | none => (insts, [])
  | some inst =>
    let inst2 : Instance :=
      { deviceId := s.device.getD inst.deviceId
        name := s.name.getD ""
        percentage := inst.percentage
        charging := inst.charging
        backgroundColor := s.bg.getD inst.backgroundColor
        spacing := s.spacing.getD 2 }
    let effs :=
      if wsOpt = some WsReadyState.OPEN ∧ inst2.deviceId ≠ "" then
        sendEffects wsOpt ("/battery/" ++ inst2.deviceId ++ "/state") "GET"
      else []
    (updAssoc id inst2 insts, effs)

/-- `onWillAppear`: store the instance (insert or overwrite), start a
connection when `ws` is null and none is in flight, then always invoke
`websocketSend(ws, "/devices/list", "GET")`. -/
def onWillAppear (cs : ConnState) (insts : List (String × Instance)) (id : String)
    (s : MonitorSettings) : ConnState × List (String × Instance) × List Effect :=
  let insts2 := setAssoc id (defaultInstance s) insts
  let r := if cs.ws.isNone && !cs.isConnecting then startWebSocketConnection cs else (cs, [])
  (r.1, insts2, r.2 ++ sendEffects r.1.ws "/devices/list" "GET")

/-! ## MessageRouter -/

/-- Registry plus instance table, the state the message handler reads and
writes. -/
structure RouterState where
  devices : List Device
  instances : List (String × Instance)
deriving DecidableEq, Repr

/-- `inst.deviceId || devices[0].id`: short-circuits on a non-empty (truthy)
`deviceId`; otherwise indexes `devices[0]`, which on an empty list is
`undefined` and reading `.id` throws (`none`). -/
def resolveDevId (deviceId : String) (devs : List Device) : Option String :=
  if deviceId ≠ "" then some deviceId
  else
    match devs with
    | [] => none
    | d :: _ => some d.id

/-- The device-list branch's loop over `instances.entries()`: resolve each
instance's device id, and when it is truthy store it back and issue a battery
query.  `none` models the TypeError thrown by `devices[0].id` aborting the
handler. -/
def processInstancesDL (devs : List Device) (wsOpt : Option WsReadyState) :
    List (String × Instance) → Option (List (String × Instance) × List Effect)
  | [] => some ([], [])
  | (k, inst) :: rest =>
    match resolveDevId inst.deviceId devs with
    | none => none
    | some devId =>
      let r :=
        if devId ≠ "" then
          ({ inst with deviceId := devId },
           sendEffects wsOpt ("/battery/" ++ devId ++ "/state") "GET")
        else (inst, [])
      match processInstancesDL devs wsOpt rest with
      | none => none
      | some (rest2, effsRest) => some ((k, r.1) :: rest2, r.2 ++ effsRest)

/-- The asleep branch's loop over `streamDeck.actions`: for each action whose
instance is bound to the failed device, request the asleep composite and clear
the title. -/
def asleepEffects (insts : List (String × Instance)) (failed : String) :
    List String → List Effect
  | [] => []
  | a :: rest =>
    match lookupInst a insts with
    | some inst =>
      if inst.deviceId = failed then
        setCompositeImage insts a "imgs/actions/monitor/asleep" :: Effect.setTitle a "" ::
          asleepEffects insts failed rest
      else asleepEffects insts failed rest
    | none => asleepEffects insts failed rest

/-- The update written into an instance by a battery-state push. -/
def updInst (bp : BatteryPayload) (i : Instance) : Instance :=
  { i with percentage := bp.percentage, charging := bp.charging }

/-- The battery-update branch's loop over `streamDeck.actions`: each action
whose instance is bound to the payload's device has its percentage and
charging stored, and gets a composite render of the new battery image and a
title update; the table is mutated in place as iteration proceeds. -/
def processBatteryUpdate (bp : BatteryPayload) :
    List String → List (String × Instance) → List (String × Instance) × List Effect
  | [], insts => (insts, [])
  | a :: rest, insts =>
    match lookupInst a insts with
    | none => processBatteryUpdate bp rest insts
    | some inst =>
      if inst.deviceId ≠ bp.deviceId then processBatteryUpdate bp rest insts
      else
        let inst2 := updInst bp inst
        let insts2 := updAssoc a inst2 insts
        let r := processBatteryUpdate bp rest insts2
        (r.1, setCompositeImage insts2 a (getBatteryImage bp) :: Effect.setTitle a (titleFor inst2) :: r.2)

/-- `handleWebsocketMessage`: the device-list branch (guarded by a non-null
`ws` and path equality) replaces the registry with the battery-capable devices
and runs the assignment loop, then republishes the list to the property
inspector; the battery branch (path contains `/battery/`) either marks the
parsed device's instances asleep (no payload) or fans the payload out to every
matching instance.  `none` models an uncaught exception (the handler has no
try/catch); a frame whose body does not match its path's shape is modelled as
a decode error. -/
def handleWebsocketMessage (wsOpt : Option WsReadyState) (actions : List String)
    (st : RouterState) (msg : WsMessage) : Option (RouterState × List Effect) :=
  let step1 : Option (RouterState × List Effect) :=
    if wsOpt.isSome ∧ msg.path = "/devices/list" then
      match msg.payload with
      | some (PayloadBody.deviceList infos) =>
        let devs := infos.filter (fun d => d.capabilities.hasBatteryStatus)
        match processInstancesDL devs wsOpt st.instances with
        | none => none
        | some (insts2, effs) =>
          some (⟨devs, insts2⟩,
            effs ++ [Effect.sendToPI (devs.map (fun d => (d.displayName, d.id)))])
      | _ => none
    else some (st, [])
  match step1 with
  | none => none
  | some (st1, effs1) =>
    if strIncludes msg.path "/battery/" then
      match msg.payload with
      | none =>
        some (st1, effs1 ++ asleepEffects st1.instances (parseFailedDevice msg.path) actions)
      | some (PayloadBody.battery bp) =>
        let r := processBatteryUpdate bp actions st1.instances
        some (⟨st1.devices, r.1⟩, effs1 ++ r.2)
      | some (PayloadBody.deviceList _) => none
    else some (st1, effs1)

/-! ## The whole plugin as a step relation

External stimuli (widget lifecycle callbacks, settings changes, socket
callbacks, reconnect-interval ticks, inbound frames) are events; `step`
applies the corresponding source handler to the global state. -/

/-- The module-level globals together with the host's action collection. -/
structure SysState where
  conn : ConnState
  devices : List Device
  instances : List (String × Instance)
  actions : List String
deriving DecidableEq, Repr

/-- External events driving the plugin. -/
inductive Event
  | appear (id : String) (s : MonitorSettings)
  | settings (id : String) (s : MonitorSettings)
  | openEvt
  | closeEvt
  | timerTick
  | message (m : WsMessage)
  | removeInstance (id : String)
deriving DecidableEq, Repr

/-- One reaction of the plugin to an external event.  `openEvt` is the socket
"open" callback (clear `isConnecting`, cancel the reconnect interval, send the
two initialization requests), `closeEvt` the "error"/"close" callbacks
(cleanup then schedule a reconnect), `timerTick` a firing of the armed
`reconnectInterval` (its callback re-connects only when `ws` is null and no
attempt is in flight; it never clears itself).  `removeInstance` is modelled
from the spec: the source registers no removal hook, so removal of a widget
only deletes the host's action and its instance entry and runs no plugin
code. -/
def step (st : SysState) : Event → Option (SysState × List Effect)
  | Event.appear id s =>
    let r := onWillAppear st.conn st.instances id s
    some ({ st with
              conn := r.1
              instances := r.2.1
              actions := if id ∈ st.actions then st.actions else st.actions ++ [id] }, r.2.2)
  | Event.settings id s =>
    let r := onDidReceiveSettings st.conn.ws id s st.instances
    some ({ st with instances := r.1 }, r.2)
  | Event.openEvt =>
    some ({ st with conn := ⟨some WsReadyState.OPEN, false, false⟩ },
          [Effect.wsSend ⟨"/devices/list", "GET"⟩,
           Effect.wsSend ⟨"/battery/state/changed", "SUBSCRIBE"⟩])
  | Event.closeEvt =>
    some ({ st with conn := scheduleReconnect (cleanupWebSocket st.conn) st.instances.length },
          [])
  | Event.timerTick =>
    if st.conn.reconnectArmed then
      if st.conn.ws.isNone && !st.conn.isConnecting then
        let r := startWebSocketConnection st.conn
        some ({ st with conn := r.1 }, r.2)
      else some (st, [])
    else some (st, [])
  | Event.message m =>
    match handleWebsocketMessage st.conn.ws st.actions ⟨st.devices, st.instances⟩ m with
    | none => none
    | some (rs2, effs) =>
      some ({ st with devices := rs2.devices, instances := rs2.instances }, effs)
  | Event.removeInstance id =>
    some ({ st with
              instances := st.instances.filter (fun p => p.1 ≠ id)
              actions := st.actions.filter (fun a => a ≠ id) }, [])

/-! ## Lemmas about the instance table -/

theorem lookupInst_updAssoc_self (k : String) (v : Instance) :
    ∀ l inst, lookupInst k l = some inst → lookupInst k (updAssoc k v l) = some v := by
  intro l
  induction l with
  | nil => intro inst h; simp [lookupInst] at h
  | cons p rest ih =>
    intro inst h
    obtain ⟨k2, v2⟩ := p
    by_cases hk : k2 = k
    · simp [lookupInst, updAssoc, hk]
    · simp only [lookupInst, updAssoc, if_neg hk] at h ⊢
      exact ih inst h

theorem lookupInst_updAssoc_ne (k : String) (v : Instance) (k2 : String) (hk : k2 ≠ k) :
    ∀ l, lookupInst k2 (updAssoc k v l) = lookupInst k2 l := by
  intro l
  induction l with
  | nil => rfl
  | cons p rest ih =>
    obtain ⟨k3, v3⟩ := p
    by_cases h3 : k3 = k
    · subst h3
      simp [lookupInst, updAssoc, Ne.symm hk]
    · simp only [updAssoc, if_neg h3, lookupInst]
      by_cases h4 : k3 = k2
      · simp [h4]
      · simp only [if_neg h4]
        exact ih

theorem lookupInst_append_single (k : String) (v : Instance) :
    ∀ l, lookupInst k l = none → lookupInst k (l ++ [(k, v)]) = some v := by
  intro l
  induction l with
  | nil => intro _; simp [lookupInst]
  | cons p rest ih =>
    intro h
    obtain ⟨k2, v2⟩ := p
    by_cases hk : k2 = k
    · simp [lookupInst, hk] at h
    · simp only [lookupInst, if_neg hk, List.cons_append] at h ⊢
      exact ih h

theorem lookupInst_setAssoc_self (k : String) (v : Instance) (l : List (String × Instance)) :
    lookupInst k (setAssoc k v l) = some v := by
  unfold setAssoc
  cases h : lookupInst k l with
  | none => exact lookupInst_append_single k v l h
  | some inst => exact lookupInst_updAssoc_self k v l inst h

/-! ## C6, C10: settings changes -/

/-- C6: a settings-change event updates only the targeted instance's name,
deviceId (kept when not supplied), background colour and spacing; the target's
percentage and charging fields keep their prior values, and every other
instance's binding is unchanged. -/
theorem settings_change_isolated (wsOpt : Option WsReadyState) (id : String)
    (s : MonitorSettings) (insts : List (String × Instance)) :
    (∀ k, k ≠ id → lookupInst k (onDidReceiveSettings wsOpt id s insts).1 = lookupInst k insts) ∧
    (∀ inst, lookupInst id insts = some inst →
      lookupInst id (onDidReceiveSettings wsOpt id s insts).1 =
        some ⟨s.device.getD inst.deviceId, s.name.getD "", inst.percentage, inst.charging,
              s.bg.getD inst.backgroundColor, s.spacing.getD 2⟩) := by
  constructor
  · intro k hk
    unfold onDidReceiveSettings
    cases h : lookupInst id insts with
    | none => rfl
    | some inst => exact lookupInst_updAssoc_ne id _ k hk insts
  · intro inst h
    simp only [onDidReceiveSettings, h]
    exact lookupInst_updAssoc_self id _ insts inst h

def instA : Instance := ⟨"dev001", "Mouse", 55, false, "#000000", 1⟩

def instB : Instance := ⟨"dev002", "Headset", 70, true, "#111111", 3⟩

def settingsW : MonitorSettings := ⟨none, none, some "NewName", none, some "#222222", some 4⟩

/-- C6 witness: updating instance "a" leaves "b" untouched and keeps "a"'s
percentage and charging. -/
theorem settings_change_isolated_witness :
    lookupInst "b" (onDidReceiveSettings none "a" settingsW [("a", instA), ("b", instB)]).1 =
      lookupInst "b" [("a", instA), ("b", instB)] ∧
    lookupInst "a" (onDidReceiveSettings none "a" settingsW [("a", instA), ("b", instB)]).1 =
      some ⟨"dev001", "NewName", 55, false, "#222222", 4⟩ := by
  have h := settings_change_isolated none "a" settingsW [("a", instA), ("b", instB)]
  exact ⟨h.1 "b" (by decide), h.2 instA (by decide)⟩

/-- C10: fields absent from the supplied settings are handled asymmetrically:
the name resets to the empty string and the spacing to its default 2, while
deviceId and backgroundColor keep their prior values. -/
theorem settings_absent_fields_asymmetric (wsOpt : Option WsReadyState) (id : String)
    (s : MonitorSettings) (insts : List (String × Instance)) (inst : Instance)
    (hname : s.name = none) (hspacing : s.spacing = none)
    (hdev : s.device = none) (hbg : s.bg = none)
    (h : lookupInst id insts = some inst) :
    lookupInst id (onDidReceiveSettings wsOpt id s insts).1 =
      some ⟨inst.deviceId, "", inst.percentage, inst.charging, inst.backgroundColor, 2⟩ := by
  have h2 := (settings_change_isolated wsOpt id s insts).2 inst h
  rw [hname, hspacing, hdev, hbg] at h2
  exact h2

/-- C10 witness: an all-absent settings payload on a populated instance. -/
theorem settings_absent_fields_asymmetric_witness :
    lookupInst "a"
        (onDidReceiveSettings none "a" ⟨none, none, none, none, none, none⟩ [("a", instA)]).1 =
      some ⟨"dev001", "", 55, false, "#000000", 2⟩ :=
  settings_absent_fields_asymmetric none "a" ⟨none, none, none, none, none, none⟩
    [("a", instA)] instA rfl rfl rfl rfl (by decide)

/-! ## C9: send on a non-open socket -/

/-- C9: `websocketSend` never throws to its caller (it is a total function with
no error outcome: its whole body sits in a try/catch); on every call made while
the connection is not open nothing is written to the wire, and the invocation
contributes no effect beyond the attempt record, so no state changes. -/
theorem websocketSend_not_open_drops (wsOpt : Option WsReadyState) (sendRaises : Bool)
    (path verb : String) (h : wsOpt ≠ some WsReadyState.OPEN) :
    (websocketSend wsOpt sendRaises path verb).1 = none ∧
    sendEffects wsOpt path verb = [Effect.sendAttempt path verb] := by
  cases wsOpt with
  | none => exact ⟨rfl, rfl⟩
  | some rs =>
    have hrs : ¬(rs = WsReadyState.OPEN) := by
      intro hh
      exact h (by rw [hh])
    constructor
    · simp [websocketSend, hrs]
    · simp [sendEffects, websocketSend, hrs]

/-- C9 witness: a send on a closed socket writes nothing. -/
theorem websocketSend_not_open_drops_witness :
    (websocketSend (some WsReadyState.CLOSED) false "/devices/list" "GET").1 = none ∧
    sendEffects (some WsReadyState.CLOSED) "/devices/list" "GET" =
      [Effect.sendAttempt "/devices/list" "GET"] :=
  websocketSend_not_open_drops (some WsReadyState.CLOSED) false "/devices/list" "GET"
    (by decide)

/-! ## C2: empty snapshot with an unassigned instance -/

def instUnassigned : Instance := ⟨"", "", 100, false, "#12142D", 2⟩

/-- C2: processing a device-list snapshot whose battery-capable-filtered list
is empty, while an instance has an empty deviceId, makes the handler index the
empty device list: `devices[0].id` throws a TypeError (modelled as `none`),
instead of leaving the deviceId empty and skipping the battery query as the
spec requires. -/
theorem deviceList_empty_snapshot_crashes :
    handleWebsocketMessage (some WsReadyState.OPEN) ["a"]
      ⟨[], [("a", instUnassigned)]⟩
      ⟨"/devices/list", some (PayloadBody.deviceList [])⟩ = none := by
  decide

/-! ## C7: widget appearance -/

def noSettings : MonitorSettings := ⟨none, none, none, none, none, none⟩

/-- C7: when a widget appears its instance is created or overwritten with the
defaults (background "#12142D", spacing 2, percentage 100, charging false)
merged from the supplied settings; a connection attempt is triggered when no
socket exists and none is in flight; and the device-list request is always
issued. -/
theorem willAppear_initializes (cs : ConnState) (insts : List (String × Instance))
    (id : String) (s : MonitorSettings) :
    lookupInst id (onWillAppear cs insts id s).2.1 =
      some ⟨s.device.getD "", s.name.getD "", s.value.getD 100, s.pluggedIn.getD false,
            s.bg.getD "#12142D", s.spacing.getD 2⟩ ∧
    (cs.ws = none → cs.isConnecting = false →
      Effect.connectAttempt ∈ (onWillAppear cs insts id s).2.2 ∧
      (onWillAppear cs insts id s).1.ws = some WsReadyState.CONNECTING ∧
      (onWillAppear cs insts id s).1.isConnecting = true) ∧
    Effect.sendAttempt "/devices/list" "GET" ∈ (onWillAppear cs insts id s).2.2 := by
  refine ⟨?_, ?_, ?_⟩
  · exact lookupInst_setAssoc_self id (defaultInstance s) insts
  · intro hws hic
    simp [onWillAppear, startWebSocketConnection, hws, hic, sendEffects]
  · simp only [onWillAppear]
    simp [sendEffects]

/-- C7 witness: a fresh appearance with empty settings and no connection. -/
theorem willAppear_initializes_witness :
    lookupInst "a" (onWillAppear ⟨none, false, false⟩ [] "a" noSettings).2.1 =
      some ⟨"", "", 100, false, "#12142D", 2⟩ ∧
    Effect.connectAttempt ∈ (onWillAppear ⟨none, false, false⟩ [] "a" noSettings).2.2 ∧
    Effect.sendAttempt "/devices/list" "GET" ∈
      (onWillAppear ⟨none, false, false⟩ [] "a" noSettings).2.2 := by
  have h := willAppear_initializes ⟨none, false, false⟩ [] "a" noSettings
  exact ⟨h.1, (h.2.1 rfl rfl).1, h.2.2⟩

/-! ## C3: battery frame with no payload -/

theorem batteryPath_ne_deviceList (path : String)
    (hb : strIncludes path "/battery/" = true) : path ≠ "/devices/list" := by
  intro h
  subst h
  exact absurd hb (by decide)

theorem asleepEffects_mem (insts : List (String × Instance)) (failed : String) :
    ∀ actions a inst, a ∈ actions → lookupInst a insts = some inst →
      inst.deviceId = failed →
      setCompositeImage insts a "imgs/actions/monitor/asleep" ∈
        asleepEffects insts failed actions ∧
      Effect.setTitle a "" ∈ asleepEffects insts failed actions := by
  intro actions
  induction actions with
  | nil => intro a inst hmem _ _; cases hmem
  | cons b rest ih =>
    intro a inst hmem hl hd
    simp only [asleepEffects]
    rcases List.mem_cons.mp hmem with hab | hmem2
    · subst hab
      rw [hl]
      simp only [hd, if_pos rfl]
      exact ⟨List.mem_cons_self _ _, List.mem_cons_of_mem _ (List.mem_cons_self _ _)⟩
    · have h2 := ih a inst hmem2 hl hd
      cases hlb : lookupInst b insts with
      | none => exact h2
      | some instb =>
        by_cases hdb : instb.deviceId = failed
        · simp only [hdb, if_pos rfl]
          exact ⟨List.mem_cons_of_mem _ (List.mem_cons_of_mem _ h2.1),
                 List.mem_cons_of_mem _ (List.mem_cons_of_mem _ h2.2)⟩
        · simp only [if_neg hdb]
          exact h2

theorem asleepEffects_untouched (insts : List (String × Instance)) (failed : String) :
    ∀ actions a, (∀ inst, lookupInst a insts = some inst → inst.deviceId ≠ failed) →
      ∀ e ∈ asleepEffects insts failed actions, effTarget e ≠ some a := by
  intro actions
  induction actions with
  | nil => intro a _ e he; cases he
  | cons b rest ih =>
    intro a ha e he
    simp only [asleepEffects] at he
    cases hlb : lookupInst b insts with
    | none =>
      simp only [hlb] at he
      exact ih a ha e he
    | some instb =>
      simp only [hlb] at he
      by_cases hdb : instb.deviceId = failed
      · rw [if_pos hdb] at he
        have hba : b ≠ a := by
          intro hba
          subst hba
          exact ha instb hlb hdb
        rw [List.mem_cons, List.mem_cons] at he
        rcases he with he | he | he
        · subst he
          simp [setCompositeImage, effTarget, hba]
        · subst he
          simp [effTarget, hba]
        · exact ih a ha e he
      · simp only [if_neg hdb] at he
        exact ih a ha e he

/-- C3: a battery-state frame carrying no payload sets, for every instance
whose deviceId equals the device id parsed from the frame's path, the title to
the empty string and the icon to the asleep indicator; the instance table is
unchanged and instances bound to a different device id receive no effect. -/
theorem asleep_frame_fanout (rs : WsReadyState) (actions : List String) (st : RouterState)
    (path : String) (hb : strIncludes path "/battery/" = true) :
    ∃ effs, handleWebsocketMessage (some rs) actions st ⟨path, none⟩ = some (st, effs) ∧
      (∀ a inst, a ∈ actions → lookupInst a st.instances = some inst →
        inst.deviceId = parseFailedDevice path →
        setCompositeImage st.instances a "imgs/actions/monitor/asleep" ∈ effs ∧
        Effect.setTitle a "" ∈ effs) ∧
      (∀ a, (∀ inst, lookupInst a st.instances = some inst →
          inst.deviceId ≠ parseFailedDevice path) →
        ∀ e ∈ effs, effTarget e ≠ some a) := by
  have hne := batteryPath_ne_deviceList path hb
  refine ⟨asleepEffects st.instances (parseFailedDevice path) actions, ?_, ?_, ?_⟩
  · simp [handleWebsocketMessage, hne, hb]
  · intro a inst hmem hl hd
    exact asleepEffects_mem st.instances (parseFailedDevice path) actions a inst hmem hl hd
  · intro a ha e he
    exact asleepEffects_untouched st.instances (parseFailedDevice path) actions a ha e he

def stW : RouterState := ⟨[], [("a", instA), ("b", instB)]⟩

/-- C3 witness: a payload-less frame for dev001 with one matching and one
non-matching instance. -/
theorem asleep_frame_fanout_witness :
    ∃ effs, handleWebsocketMessage (some WsReadyState.OPEN) ["a", "b"] stW
        ⟨"/battery/dev001/state", none⟩ = some (stW, effs) ∧
      (∀ a inst, a ∈ ["a", "b"] → lookupInst a stW.instances = some inst →
        inst.deviceId = parseFailedDevice "/battery/dev001/state" →
        setCompositeImage stW.instances a "imgs/actions/monitor/asleep" ∈ effs ∧
        Effect.setTitle a "" ∈ effs) ∧
      (∀ a, (∀ inst, lookupInst a stW.instances = some inst →
          inst.deviceId ≠ parseFailedDevice "/battery/dev001/state") →
        ∀ e ∈ effs, effTarget e ≠ some a) :=
  asleep_frame_fanout WsReadyState.OPEN ["a", "b"] stW "/battery/dev001/state" (by decide)

/-! ## C4: battery frame with payload -/

theorem updInst_idem (bp : BatteryPayload) (i : Instance) :
    updInst bp (updInst bp i) = updInst bp i := rfl


theorem processBatteryUpdate_fixed (bp : BatteryPayload) :
    ∀ actions insts k v, lookupInst k insts = some v → updInst bp v = v →
      lookupInst k (processBatteryUpdate bp actions insts).1 = some v := by
  intro actions
  induction actions with
  | nil => intro insts k v h _; exact h
  | cons a rest ih =>
    intro insts k v h hfix
    simp only [processBatteryUpdate]
    split
    · exact ih insts k v h hfix
    · next inst heq =>
      by_cases hd : inst.deviceId = bp.deviceId
      · rw [if_neg (by simp [hd])]
        by_cases hak : a = k
        · subst hak
          rw [heq] at h
          injection h with h
          subst h
          rw [hfix]
          refine ih _ a inst ?_ hfix
          have h2 := lookupInst_updAssoc_self a (updInst bp inst) insts inst heq
          rw [hfix] at h2
          exact h2
        · refine ih _ k v ?_ hfix
          rw [lookupInst_updAssoc_ne a (updInst bp inst) k (Ne.symm hak) insts]
          exact h
      · rw [if_pos hd]
        exact ih insts k v h hfix

theorem processBatteryUpdate_untouched (bp : BatteryPayload) :
    ∀ actions insts k, (∀ i, lookupInst k insts = some i → i.deviceId ≠ bp.deviceId) →
      lookupInst k (processBatteryUpdate bp actions insts).1 = lookupInst k insts ∧
      ∀ e ∈ (processBatteryUpdate bp actions insts).2, effTarget e ≠ some k := by
  intro actions
  induction actions with
  | nil =>
    intro insts k _
    exact ⟨rfl, by intro e he; cases he⟩
  | cons a rest ih =>
    intro insts k hk
    simp only [processBatteryUpdate]
    split
    · exact ih insts k hk
    · next inst heq =>
      by_cases hd : inst.deviceId = bp.deviceId
      · rw [if_neg (by simp [hd])]
        have hak : a ≠ k := by
          intro hak
          subst hak
          exact hk inst heq hd
        have hpres : lookupInst k (updAssoc a (updInst bp inst) insts) = lookupInst k insts :=
          lookupInst_updAssoc_ne a (updInst bp inst) k (Ne.symm hak) insts
        have ih2 := ih (updAssoc a (updInst bp inst) insts) k (by rw [hpres]; exact hk)
        refine ⟨by rw [ih2.1, hpres], ?_⟩
        intro e he
        rw [List.mem_cons, List.mem_cons] at he
        rcases he with he | he | he
        · subst he
          simp [setCompositeImage, effTarget, hak]
        · subst he
          simp [effTarget, hak]
        · exact ih2.2 e he
      · rw [if_pos hd]
        exact ih insts k hk

theorem processBatteryUpdate_updated (bp : BatteryPayload) :
    ∀ actions insts a inst, a ∈ actions → lookupInst a insts = some inst →
      inst.deviceId = bp.deviceId →
      lookupInst a (processBatteryUpdate bp actions insts).1 = some (updInst bp inst) ∧
      Effect.setTitle a (titleFor (updInst bp inst)) ∈ (processBatteryUpdate bp actions insts).2 ∧
      Effect.compositeImage a (bgFor (some (updInst bp inst))) (getBatteryImage bp) ∈
        (processBatteryUpdate bp actions insts).2 := by
  intro actions
  induction actions with
  | nil => intro insts a inst hmem; cases hmem
  | cons b rest ih =>
    intro insts a inst hmem hla hd
    simp only [processBatteryUpdate]
    split
    · next heq =>
      have hab : a ≠ b := by
        intro h
        subst h
        rw [hla] at heq
        cases heq
      have hmem2 : a ∈ rest := by
        rcases List.mem_cons.mp hmem with h | h
        · exact absurd h hab
        · exact h
      exact ih insts a inst hmem2 hla hd
    · next instb heq =>
      by_cases hdb : instb.deviceId = bp.deviceId
      · rw [if_neg (by simp [hdb])]
        by_cases hab : a = b
        · subst hab
          rw [hla] at heq
          injection heq with heq2
          subst heq2
          have hl2 : lookupInst a (updAssoc a (updInst bp inst) insts) =
              some (updInst bp inst) :=
            lookupInst_updAssoc_self a (updInst bp inst) insts inst hla
          refine ⟨?_, ?_, ?_⟩
          · exact processBatteryUpdate_fixed bp rest _ a (updInst bp inst) hl2
              (updInst_idem bp inst)
          · exact List.mem_cons_of_mem _ (List.mem_cons_self _ _)
          · have hc : setCompositeImage (updAssoc a (updInst bp inst) insts) a
                (getBatteryImage bp) =
                Effect.compositeImage a (bgFor (some (updInst bp inst))) (getBatteryImage bp) := by
              simp [setCompositeImage, hl2]
            rw [← hc]
            exact List.mem_cons_self _ _
        · have hmem2 : a ∈ rest := by
            rcases List.mem_cons.mp hmem with h | h
            · exact absurd h hab
            · exact h
          have hpres : lookupInst a (updAssoc b (updInst bp instb) insts) = some inst := by
            rw [lookupInst_updAssoc_ne b (updInst bp instb) a hab insts]
            exact hla
          have ih2 := ih (updAssoc b (updInst bp instb) insts) a inst hmem2 hpres hd
          exact ⟨ih2.1, List.mem_cons_of_mem _ (List.mem_cons_of_mem _ ih2.2.1),
                 List.mem_cons_of_mem _ (List.mem_cons_of_mem _ ih2.2.2)⟩
      · rw [if_pos hdb]
        refine ih insts a inst ?_ hla hd
        rcases List.mem_cons.mp hmem with h | h
        · subst h
          rw [hla] at heq
          injection heq with heq2
          exact absurd (heq2 ▸ hd) hdb
        · exact h

/-- C4: a battery-state push carrying a payload updates, for every instance
whose deviceId equals the payload's deviceId (also when several instances are
bound to the same device), the stored percentage and charging, requests the
composite render of the new battery image and sets the recomputed title; the
registry and every instance bound to a different deviceId are unchanged and
the latter receive no effect. -/
theorem battery_push_fanout (rs : WsReadyState) (actions : List String) (st : RouterState)
    (path : String) (bp : BatteryPayload)
    (hb : strIncludes path "/battery/" = true) :
    ∃ insts2 effs,
      handleWebsocketMessage (some rs) actions st ⟨path, some (PayloadBody.battery bp)⟩ =
        some (⟨st.devices, insts2⟩, effs) ∧
      (∀ a inst, a ∈ actions → lookupInst a st.instances = some inst →
        inst.deviceId = bp.deviceId →
        lookupInst a insts2 = some (updInst bp inst) ∧
        Effect.setTitle a (titleFor (updInst bp inst)) ∈ effs ∧
        Effect.compositeImage a (bgFor (some (updInst bp inst))) (getBatteryImage bp) ∈ effs) ∧
      (∀ a, (∀ inst, lookupInst a st.instances = some inst → inst.deviceId ≠ bp.deviceId) →
        lookupInst a insts2 = lookupInst a st.instances ∧
        ∀ e ∈ effs, effTarget e ≠ some a) := by
  have hne := batteryPath_ne_deviceList path hb
  refine ⟨(processBatteryUpdate bp actions st.instances).1,
          (processBatteryUpdate bp actions st.instances).2, ?_, ?_, ?_⟩
  · simp [handleWebsocketMessage, hne, hb]
  · intro a inst hmem hla hd
    exact processBatteryUpdate_updated bp actions st.instances a inst hmem hla hd
  · intro a ha
    exact processBatteryUpdate_untouched bp actions st.instances a ha

/-- C4 witness: one push for dev001 updates the two instances bound to dev001
and leaves the dev002 instance untouched. -/
theorem battery_push_fanout_witness :
    ∃ insts2 effs,
      handleWebsocketMessage (some WsReadyState.OPEN) ["a", "b", "c"]
        ⟨[], [("a", instA), ("b", instB), ("c", instA)]⟩
        ⟨"/battery/dev001/state", some (PayloadBody.battery ⟨"dev001", 85, true⟩)⟩ =
        some (⟨[], insts2⟩, effs) ∧
      (∀ a inst, a ∈ ["a", "b", "c"] →
        lookupInst a [("a", instA), ("b", instB), ("c", instA)] = some inst →
        inst.deviceId = "dev001" →
        lookupInst a insts2 = some (updInst ⟨"dev001", 85, true⟩ inst) ∧
        Effect.setTitle a (titleFor (updInst ⟨"dev001", 85, true⟩ inst)) ∈ effs ∧
        Effect.compositeImage a (bgFor (some (updInst ⟨"dev001", 85, true⟩ inst)))
          (getBatteryImage ⟨"dev001", 85, true⟩) ∈ effs) ∧
      (∀ a, (∀ inst, lookupInst a [("a", instA), ("b", instB), ("c", instA)] = some inst →
          inst.deviceId ≠ "dev001") →
        lookupInst a insts2 = lookupInst a [("a", instA), ("b", instB), ("c", instA)] ∧
        ∀ e ∈ effs, effTarget e ≠ some a) :=
  battery_push_fanout WsReadyState.OPEN ["a", "b", "c"]
    ⟨[], [("a", instA), ("b", instB), ("c", instA)]⟩ "/battery/dev001/state"
    ⟨"dev001", 85, true⟩ (by decide)

/-! ## C5: applying a device-list snapshot -/

theorem deviceListPath_no_battery : strIncludes "/devices/list" "/battery/" = false := by
  decide

theorem processInstancesDL_total (wsOpt : Option WsReadyState) (d0 : Device)
    (ds : List Device) (hid : d0.id ≠ "") :
    ∀ insts, ∃ insts2 effs,
      processInstancesDL (d0 :: ds) wsOpt insts = some (insts2, effs) ∧
      insts2.length = insts.length ∧
      ∀ p ∈ insts, p.2.deviceId = "" →
        (p.1, { p.2 with deviceId := d0.id }) ∈ insts2 ∧
        Effect.sendAttempt ("/battery/" ++ d0.id ++ "/state") "GET" ∈ effs := by
  intro insts
  induction insts with
  | nil => exact ⟨[], [], rfl, rfl, by intro p hp; cases hp⟩
  | cons q rest ih =>
    obtain ⟨insts2, effs, heq, hlen, hmem⟩ := ih
    obtain ⟨k, inst⟩ := q
    by_cases hdev : inst.deviceId = ""
    · refine ⟨(k, { inst with deviceId := d0.id }) :: insts2,
              sendEffects wsOpt ("/battery/" ++ d0.id ++ "/state") "GET" ++ effs, ?_, ?_, ?_⟩
      · simp only [processInstancesDL, resolveDevId, hdev, heq]
        simp [hid]
      · simp [hlen]
      · intro p hp hpdev
        rcases List.mem_cons.mp hp with hpq | hpr
        · subst hpq
          exact ⟨List.mem_cons_self _ _, List.mem_append_left _ (List.mem_cons_self _ _)⟩
        · obtain ⟨h1, h2⟩ := hmem p hpr hpdev
          exact ⟨List.mem_cons_of_mem _ h1, List.mem_append_right _ h2⟩
    · refine ⟨(k, { inst with deviceId := inst.deviceId }) :: insts2,
              sendEffects wsOpt ("/battery/" ++ inst.deviceId ++ "/state") "GET" ++ effs,
              ?_, ?_, ?_⟩
      · simp only [processInstancesDL, resolveDevId, heq]
        simp [hdev]
      · simp [hlen]
      · intro p hp hpdev
        rcases List.mem_cons.mp hp with hpq | hpr
        · subst hpq
          exact absurd hpdev hdev
        · obtain ⟨h1, h2⟩ := hmem p hpr hpdev
          exact ⟨List.mem_cons_of_mem _ h1, List.mem_append_right _ h2⟩

/-- C5: applying a device-list snapshot replaces the registry with exactly the
snapshot's battery-capable devices in original snapshot order, keeps one
instance entry per instance, and every instance lacking a deviceId is stored
with the first battery-capable device's id and gets a battery-state query
issued for that id. -/
theorem deviceList_snapshot_applied (rs : WsReadyState) (actions : List String)
    (oldDevs : List Device) (insts : List (String × Instance)) (infos : List Device)
    (d0 : Device) (ds : List Device)
    (hfilter : infos.filter (fun d => d.capabilities.hasBatteryStatus) = d0 :: ds)
    (hid : d0.id ≠ "") :
    ∃ insts2 effs,
      handleWebsocketMessage (some rs) actions ⟨oldDevs, insts⟩
        ⟨"/devices/list", some (PayloadBody.deviceList infos)⟩ =
        some (⟨infos.filter (fun d => d.capabilities.hasBatteryStatus), insts2⟩, effs) ∧
      insts2.length = insts.length ∧
      ∀ p ∈ insts, p.2.deviceId = "" →
        (p.1, { p.2 with deviceId := d0.id }) ∈ insts2 ∧
        Effect.sendAttempt ("/battery/" ++ d0.id ++ "/state") "GET" ∈ effs := by
  obtain ⟨insts2, effs, heq, hlen, hmem⟩ :=
    processInstancesDL_total (some rs) d0 ds hid insts
  refine ⟨insts2,
    effs ++ [Effect.sendToPI ((d0 :: ds).map (fun d => (d.displayName, d.id)))], ?_, hlen, ?_⟩
  · simp only [handleWebsocketMessage, hfilter, heq, deviceListPath_no_battery]
    simp
  · intro p hp hdev
    obtain ⟨h1, h2⟩ := hmem p hp hdev
    exact ⟨h1, List.mem_append_left _ h2⟩

def devCapable : Device := ⟨"dev001", 1, "Wireless Mouse", ⟨true⟩⟩

def devWired : Device := ⟨"dev003", 3, "Yeti Mic", ⟨false⟩⟩

/-- C5 witness: a mixed snapshot keeps only the capable device, assigns it to
the unassigned instance and issues its battery query. -/
theorem deviceList_snapshot_applied_witness :
    ∃ insts2 effs,
      handleWebsocketMessage (some WsReadyState.OPEN) ["a"]
        ⟨[], [("a", instUnassigned)]⟩
        ⟨"/devices/list", some (PayloadBody.deviceList [devWired, devCapable])⟩ =
        some (⟨[devWired, devCapable].filter (fun d => d.capabilities.hasBatteryStatus),
               insts2⟩, effs) ∧
      insts2.length = [("a", instUnassigned)].length ∧
      ∀ p ∈ [("a", instUnassigned)], p.2.deviceId = "" →
        (p.1, { p.2 with deviceId := devCapable.id }) ∈ insts2 ∧
        Effect.sendAttempt ("/battery/" ++ devCapable.id ++ "/state") "GET" ∈ effs :=
  deviceList_snapshot_applied WsReadyState.OPEN ["a"] [] [("a", instUnassigned)]
    [devWired, devCapable] devCapable [] (by decide) (by decide)

/-! ## C8: reconnect timer lifecycle -/

theorem startWebSocketConnection_armed (cs : ConnState) :
    (startWebSocketConnection cs).1.reconnectArmed = cs.reconnectArmed := by
  unfold startWebSocketConnection
  split <;> rfl

theorem onWillAppear_armed (cs : ConnState) (insts : List (String × Instance)) (id : String)
    (s : MonitorSettings) :
    (onWillAppear cs insts id s).1.reconnectArmed = cs.reconnectArmed := by
  simp only [onWillAppear]
  split
  · exact startWebSocketConnection_armed cs
  · rfl

theorem scheduleReconnect_fields (cs : ConnState) (n : Nat) :
    (scheduleReconnect cs n).ws = cs.ws ∧
    (scheduleReconnect cs n).isConnecting = cs.isConnecting := by
  unfold scheduleReconnect
  split <;> exact ⟨rfl, rfl⟩

theorem scheduleReconnect_zero (cs : ConnState) (h0 : cs.reconnectArmed = false)
    (h1 : (scheduleReconnect cs 0).reconnectArmed = true) : False := by
  simp [scheduleReconnect] at h1
  rw [h0] at h1
  cases h1

theorem step_arms_only_close (st st2 : SysState) (effs : List Effect) (e : Event)
    (h : step st e = some (st2, effs)) (h0 : st.conn.reconnectArmed = false)
    (h1 : st2.conn.reconnectArmed = true) :
    e = Event.closeEvt ∧ st2.conn.ws = none ∧ st2.conn.isConnecting = false ∧
      st.instances.length ≠ 0 := by
  cases e with
  | appear id s =>
    exfalso
    simp only [step, Option.some.injEq, Prod.mk.injEq] at h
    obtain ⟨hst, _⟩ := h
    rw [← hst] at h1
    have h2 : (onWillAppear st.conn st.instances id s).1.reconnectArmed = true := h1
    rw [onWillAppear_armed, h0] at h2
    cases h2
  | settings id s =>
    exfalso
    simp only [step, Option.some.injEq, Prod.mk.injEq] at h
    obtain ⟨hst, _⟩ := h
    rw [← hst] at h1
    have h2 : st.conn.reconnectArmed = true := h1
    rw [h0] at h2
    cases h2
  | openEvt =>
    exfalso
    simp only [step, Option.some.injEq, Prod.mk.injEq] at h
    obtain ⟨hst, _⟩ := h
    rw [← hst] at h1
    have h2 : (false : Bool) = true := h1
    cases h2
  | closeEvt =>
    simp only [step, Option.some.injEq, Prod.mk.injEq] at h
    obtain ⟨hst, _⟩ := h
    have h2 : (scheduleReconnect (cleanupWebSocket st.conn)
        st.instances.length).reconnectArmed = true := by
      rw [← hst] at h1
      exact h1
    have hfields := scheduleReconnect_fields (cleanupWebSocket st.conn) st.instances.length
    refine ⟨rfl, ?_, ?_, ?_⟩
    · rw [← hst]
      show (scheduleReconnect (cleanupWebSocket st.conn) st.instances.length).ws = none
      rw [hfields.1]
      rfl
    · rw [← hst]
      show (scheduleReconnect (cleanupWebSocket st.conn)
        st.instances.length).isConnecting = false
      rw [hfields.2]
      rfl
    · intro hn
      rw [hn] at h2
      have hc : (cleanupWebSocket st.conn).reconnectArmed = false := h0
      exact scheduleReconnect_zero (cleanupWebSocket st.conn) hc h2
  | timerTick =>
    exfalso
    have hstep : step st Event.timerTick = some (st, []) := by
      simp [step, h0]
    rw [hstep] at h
    injection h with h
    injection h with ha hb
    rw [← ha] at h1
    rw [h0] at h1
    cases h1
  | message m =>
    exfalso
    simp only [step] at h
    cases hm : handleWebsocketMessage st.conn.ws st.actions ⟨st.devices, st.instances⟩ m with
    | none =>
      rw [hm] at h
      cases h
    | some pr =>
      obtain ⟨rs2, effs2⟩ := pr
      simp only [hm] at h
      obtain ⟨hst, _⟩ := h
      have h2 : st.conn.reconnectArmed = true := h1
      rw [h0] at h2
      cases h2
  | removeInstance id =>
    exfalso
    simp only [step, Option.some.injEq, Prod.mk.injEq] at h
    obtain ⟨hst, _⟩ := h
    rw [← hst] at h1
    have h2 : st.conn.reconnectArmed = true := h1
    rw [h0] at h2
    cases h2

theorem step_tick_attempts (st : SysState) (h1 : st.conn.reconnectArmed = true)
    (h2 : st.conn.ws = none) (h3 : st.conn.isConnecting = false) :
    step st Event.timerTick =
      some ({ st with conn :=
                { st.conn with ws := some WsReadyState.CONNECTING, isConnecting := true } },
            [Effect.connectAttempt]) := by
  simp [step, h1, h2, h3, startWebSocketConnection]

theorem step_open_clears (st st2 : SysState) (effs : List Effect)
    (h : step st Event.openEvt = some (st2, effs)) : st2.conn.reconnectArmed = false := by
  simp only [step, Option.some.injEq, Prod.mk.injEq] at h
  rw [← h.1]

theorem step_remove_preserves (st : SysState) (id : String) (st2 : SysState)
    (effs : List Effect) (h : step st (Event.removeInstance id) = some (st2, effs)) :
    st2.conn.reconnectArmed = st.conn.reconnectArmed := by
  simp only [step, Option.some.injEq, Prod.mk.injEq] at h
  rw [← h.1]

def stAfterClose : SysState := ⟨⟨none, false, true⟩, [], [("a", instUnassigned)], ["a"]⟩

def stArmedEmpty : SysState := ⟨⟨none, false, true⟩, [], [], []⟩

/-- C8 counterexample: from the initial state a widget appears, the socket
closes (arming the reconnect timer while one instance exists), then the last
instance is removed; the timer stays armed and its next tick still attempts a
reconnection with zero instances, so the claimed self-cancellation after the
last instance is removed fails on the code (the interval callback never checks
the instance count and is only cleared by a successful open). -/
theorem reconnect_timer_survives_removal :
    (step ⟨⟨none, false, false⟩, [], [], []⟩ (Event.appear "a" noSettings)).map Prod.fst =
      some ⟨⟨some WsReadyState.CONNECTING, true, false⟩, [], [("a", instUnassigned)], ["a"]⟩ ∧
    (step ⟨⟨some WsReadyState.CONNECTING, true, false⟩, [], [("a", instUnassigned)], ["a"]⟩
        Event.closeEvt).map Prod.fst = some stAfterClose ∧
    (step stAfterClose (Event.removeInstance "a")).map Prod.fst = some stArmedEmpty ∧
    stArmedEmpty.instances.length = 0 ∧
    stArmedEmpty.conn.reconnectArmed = true ∧
    step stArmedEmpty Event.timerTick =
      some (⟨⟨some WsReadyState.CONNECTING, true, true⟩, [], [], []⟩,
            [Effect.connectAttempt]) := by
  decide

/-- C8 (amended): the reconnect timer is armed only by the close/error path,
leaving the connection state disconnected, and only when at least one instance
exists at arming time; while armed and disconnected each tick of the fixed
5000 ms interval attempts a new connection and leaves the timer armed; the
timer is cancelled exactly by a successful open; removing instances does not
cancel it, so ticks keep firing after the last instance is removed. -/
theorem reconnect_timer_behaviour :
    RECONNECT_INTERVAL_MS = 5000 ∧
    (∀ st st2 effs e, step st e = some (st2, effs) →
      st.conn.reconnectArmed = false → st2.conn.reconnectArmed = true →
      e = Event.closeEvt ∧ st2.conn.ws = none ∧ st2.conn.isConnecting = false ∧
        st.instances.length ≠ 0) ∧
    (∀ st, st.conn.reconnectArmed = true → st.conn.ws = none →
      st.conn.isConnecting = false →
      step st Event.timerTick =
        some ({ st with conn :=
                  { st.conn with ws := some WsReadyState.CONNECTING, isConnecting := true } },
              [Effect.connectAttempt])) ∧
    (∀ st st2 effs, step st Event.openEvt = some (st2, effs) →
      st2.conn.reconnectArmed = false) ∧
    (∀ st id st2 effs, step st (Event.removeInstance id) = some (st2, effs) →
      st2.conn.reconnectArmed = st.conn.reconnectArmed) :=
  ⟨rfl,
   fun st st2 effs e h h0 h1 => step_arms_only_close st st2 effs e h h0 h1,
   fun st h1 h2 h3 => step_tick_attempts st h1 h2 h3,
   fun st st2 effs h => step_open_clears st st2 effs h,
   fun st id st2 effs h => step_remove_preserves st id st2 effs h⟩

/-- C8 witness: an armed, disconnected state with no instances still attempts
a reconnection on the next tick. -/
theorem reconnect_timer_behaviour_witness :
    step stArmedEmpty Event.timerTick =
      some ({ stArmedEmpty with conn :=
                { stArmedEmpty.conn with
                    ws := some WsReadyState.CONNECTING
                    isConnecting := true } },
            [Effect.connectAttempt]) :=
  reconnect_timer_behaviour.2.2.1 stArmedEmpty rfl rfl rfl
